import Mathlib

/-!
# Verification of the SMS device-fleet platform against its specification

Shallow embedding of the message-sending operations of the repository:

* `SMSService` (mobile/react-native service): phone-number cleaning and
  validation, `sendSMS`, `splitLongMessage`, `sendLongSMS`;
* the React-Native bridge component: `updateMessageStatus` over its
  message queue;
* `SmsManagerModule.sendSMS` (mobile/android/SmsManager.java);
* `WebUSBSMS.sendSMS` (the WebUSB AT-command modem adapter);
* `NetworkService.send` (the WebSocket client);
* `generatePreview` (the campaign-builder personalization function);
* spec-modelled retry/concurrency state machines for the Dispatcher and
  Registry, whose implementation (backend services) is not among the
  provided sources.

Strings are embedded as `List Char`; `str` converts a Lean string literal.
-/

/-- Convert a Lean string literal to the `List Char` representation used
throughout this development. -/
def str (s : String) : List Char := s.data

/-! ## SMSService.splitLongMessage -/

/-- The chunking loop of `splitLongMessage`
(`for (let i = 0; i < message.length; i += maxLength) parts.push(message.substring(i, i + maxLength))`),
written with an explicit fuel argument.  For `0 < k` a fuel of
`message.length` is enough, and the result coincides with the JS loop;
for `k = 0` the JS loop does not terminate, a case no caller exercises
(the only call sites use the default `maxLength = 160`). -/
def chunksGo (k : Nat) : Nat → List Char → List (List Char)
  | _, [] => []
  | 0, _ :: _ => []
  | fuel + 1, c :: cs => (c :: cs).take k :: chunksGo k fuel ((c :: cs).drop k)

/-- `SMSService.splitLongMessage(message, maxLength = 160)`: a message of
at most `maxLength` characters is returned as a one-element list, a longer
one is cut into consecutive `maxLength`-sized chunks. -/
def splitLongMessage (message : List Char) (maxLength : Nat) : List (List Char) :=
  if message.length ≤ maxLength then [message]
  else chunksGo maxLength message.length message

theorem chunksGo_flatten (k : Nat) (hk : 0 < k) :
    ∀ (fuel : Nat) (l : List Char), l.length ≤ fuel → (chunksGo k fuel l).flatten = l := by
  intro fuel
  induction fuel with
  | zero =>
    intro l hl
    cases l with
    | nil => simp [chunksGo]
    | cons c cs => simp at hl
  | succ n ih =>
    intro l hl
    cases l with
    | nil => simp [chunksGo]
    | cons c cs =>
      have hdrop : ((c :: cs).drop k).length ≤ n := by
        have h1 : ((c :: cs).drop k).length = (c :: cs).length - k := by
          simp [List.length_drop]
        have h2 : (c :: cs).length - k ≤ (n + 1) - k := Nat.sub_le_sub_right hl k
        have h3 : (n + 1) - k ≤ (n + 1) - 1 := Nat.sub_le_sub_left hk (n + 1)
        have h4 : (n + 1) - 1 = n := rfl
        rw [h1]
        exact le_trans h2 (le_trans h3 (le_of_eq h4))
      have ihd := ih ((c :: cs).drop k) hdrop
      simp only [chunksGo, List.flatten_cons, ihd]
      exact List.take_append_drop k (c :: cs)

theorem chunksGo_length_le (k : Nat) :
    ∀ (fuel : Nat) (l : List Char) (p : List Char), p ∈ chunksGo k fuel l → p.length ≤ k := by
  intro fuel
  induction fuel with
  | zero =>
    intro l p hp
    cases l with
    | nil => simp [chunksGo] at hp
    | cons c cs => simp [chunksGo] at hp
  | succ n ih =>
    intro l p hp
    cases l with
    | nil => simp [chunksGo] at hp
    | cons c cs =>
      simp only [chunksGo, List.mem_cons] at hp
      rcases hp with h | h
      · subst h
        simp [List.length_take]
      · exact ih _ _ h

/-- C5: `splitLongMessage` is an order-preserving partition: every part has
at most `maxLength` characters (160 at the default), the in-order
concatenation of the parts is the original message, and a message of at
most `maxLength` characters comes back as the one-element list holding the
message unchanged. -/
theorem splitLongMessage_partition (message : List Char) (k : Nat) (hk : 0 < k) :
    (∀ p ∈ splitLongMessage message k, p.length ≤ k)
      ∧ (splitLongMessage message k).flatten = message
      ∧ (message.length ≤ k → splitLongMessage message k = [message]) := by
  unfold splitLongMessage
  by_cases h : message.length ≤ k
  · rw [if_pos h]
    refine ⟨?_, by simp, fun _ => rfl⟩
    intro p hp
    rw [List.mem_singleton] at hp
    subst hp
    exact h
  · rw [if_neg h]
    exact ⟨fun p hp => chunksGo_length_le k message.length message p hp,
      chunksGo_flatten k hk message.length message le_rfl,
      fun hc => absurd hc h⟩

/-- Witness for `splitLongMessage_partition` at the concrete message
`"hello"` and the default segment size 160. -/
theorem splitLongMessage_partition_witness :
    (splitLongMessage (str "hello") 160).flatten = str "hello"
      ∧ splitLongMessage (str "hello") 160 = [str "hello"] :=
  ⟨(splitLongMessage_partition (str "hello") 160 (by decide)).2.1,
   (splitLongMessage_partition (str "hello") 160 (by decide)).2.2 (by decide)⟩

/-! ## SMSService (mobile/react-native SMS service) -/

/-- The `SMSResult` record returned by `SMSService.sendSMS`: `success`,
optional `messageId`, optional `error` reason. -/
structure SMSResult where
  success : Bool
  messageId : Option (List Char)
  error : Option (List Char)
deriving DecidableEq

/-- JS `String.prototype.trim` on the ASCII whitespace characters the
sources can contain. -/
def jsTrim (s : List Char) : List Char :=
  ((s.dropWhile Char.isWhitespace).reverse.dropWhile Char.isWhitespace).reverse

namespace SMSService

/-- `cleanPhoneNumber`: drop every character that is neither a digit nor
`'+'` (`replace(/[^\d+]/g, '')`); when the original number starts with
`'+'`, the result is `'+'` followed by the tail of the filtered string. -/
def cleanPhoneNumber (phoneNumber : List Char) : List Char :=
  let cleaned := phoneNumber.filter fun c => c.isDigit || c = '+'
  if phoneNumber.head? = some '+' then '+' :: cleaned.drop 1 else cleaned

/-- `isValidPhoneNumber`: the test of `^(\+\d{1,3}\d{4,14}|\d{4,15})$` —
either `'+'` followed by 5 to 17 digits (1–3 country-code digits plus 4–14
subscriber digits), or 4 to 15 digits. -/
def isValidPhoneNumber (phoneNumber : List Char) : Bool :=
  match phoneNumber with
  | '+' :: rest =>
      rest.all Char.isDigit && decide (5 ≤ rest.length) && decide (rest.length ≤ 17)
  | s => s.all Char.isDigit && decide (4 ≤ s.length) && decide (s.length ≤ 15)

/-- `SMSService.sendSMS(phoneNumber, message)`.
`hasNative` models `this.nativeModule` being non-null (it is null off
Android); `native` models the native module's `sendSMS` promise — `.ok
mid?` a resolution whose `messageId` field is `mid?`, `.error e` a
rejection whose display string (after the catch block's `error.message` /
string / `'Unknown error occurred'` selection) is `e`; `nowId` is the
`Date.now()` suffix of the fallback message id.  The second component of
the result records whether the native transport send was invoked. -/
def sendSMS (hasNative : Bool)
    (native : List Char → List Char → Except (List Char) (Option (List Char)))
    (nowId phoneNumber message : List Char) : SMSResult × Bool :=
  if !hasNative then
    (⟨false, none, some (str "SMS functionality not available on this platform")⟩, false)
  else
    let cleanNumber := cleanPhoneNumber phoneNumber
    if !isValidPhoneNumber cleanNumber then
      (⟨false, none, some (str "Invalid phone number format")⟩, false)
    else if (jsTrim message).length = 0 then
      (⟨false, none, some (str "Message cannot be empty")⟩, false)
    else
      match native cleanNumber (jsTrim message) with
      | .ok mid => (⟨true, some (mid.getD (str "sms_" ++ nowId)), none⟩, true)
      | .error e => (⟨false, none, some e⟩, true)

/-- The per-part bodies `sendLongSMS` sends: the parts of
`splitLongMessage(message)` at the default segment size 160, each prefixed
with `"(i/n) "` when there is more than one part. -/
def partMessages (message : List Char) : List (List Char) :=
  let parts := splitLongMessage message 160
  parts.enum.map fun ip =>
    if 1 < parts.length then
      str "(" ++ (toString (ip.1 + 1)).data ++ str "/" ++ (toString parts.length).data
        ++ str ") " ++ ip.2
    else ip.2

/-- `SMSService.sendLongSMS(phoneNumber, message)`: sends every numbered
part with `sendSMS`, in order, and returns the list of per-part results.
It does not stop at a failing part and computes no aggregate outcome; the
inter-part delay has no effect on the results. -/
def sendLongSMS (hasNative : Bool)
    (native : List Char → List Char → Except (List Char) (Option (List Char)))
    (nowId phoneNumber message : List Char) : List SMSResult :=
  (partMessages message).map fun pm => (sendSMS hasNative native nowId phoneNumber pm).1

end SMSService

/-- C7: a recipient number that fails format validation, or an empty
message body, makes `SMSService.sendSMS` return a failure result carrying
an error reason without invoking the native transport send (so a
malformed recipient consumes no retry attempt). -/
theorem sendSMS_rejects_without_transport (hasNative : Bool)
    (native : List Char → List Char → Except (List Char) (Option (List Char)))
    (nowId phoneNumber message : List Char)
    (h : SMSService.isValidPhoneNumber (SMSService.cleanPhoneNumber phoneNumber) = false
          ∨ (jsTrim message).length = 0) :
    (SMSService.sendSMS hasNative native nowId phoneNumber message).1.success = false
      ∧ (SMSService.sendSMS hasNative native nowId phoneNumber message).1.error.isSome = true
      ∧ (SMSService.sendSMS hasNative native nowId phoneNumber message).2 = false := by
  unfold SMSService.sendSMS
  cases hasNative with
  | false => simp
  | true =>
    rcases h with h | h
    · simp [h]
    · by_cases hv : SMSService.isValidPhoneNumber (SMSService.cleanPhoneNumber phoneNumber) = false
      · simp [hv]
      · rw [Bool.not_eq_false] at hv
        simp [hv, h]

/-- Witness for `sendSMS_rejects_without_transport`: the malformed
recipient `"abc"` with body `"hi"` on a native module that would accept
anything. -/
theorem sendSMS_rejects_without_transport_witness :
    (SMSService.isValidPhoneNumber (SMSService.cleanPhoneNumber (str "abc")) = false
        ∨ (jsTrim (str "hi")).length = 0)
      ∧ ((SMSService.sendSMS true (fun _ _ => .ok none) (str "0") (str "abc") (str "hi")).1.success
            = false
        ∧ (SMSService.sendSMS true (fun _ _ => .ok none) (str "0") (str "abc") (str "hi")).1.error.isSome
            = true
        ∧ (SMSService.sendSMS true (fun _ _ => .ok none) (str "0") (str "abc") (str "hi")).2
            = false) :=
  ⟨Or.inl (by decide),
   sendSMS_rejects_without_transport true (fun _ _ => .ok none) (str "0") (str "abc") (str "hi")
     (Or.inl (by decide))⟩

/-! ## SmsManagerModule.sendSMS (mobile/android/SmsManager.java) -/

/-- Outcome of the React-Native promise of `SmsManagerModule.sendSMS`. -/
inductive PromiseOutcome
  | resolve (status : List Char) (messageId : List Char)
  | reject (code : List Char) (message : List Char)
deriving DecidableEq

/-- Whether the promise outcome reports overall success
(`status: "sent"`). -/
def PromiseOutcome.isSent : PromiseOutcome → Bool
  | .resolve status _ => decide (status = str "sent")
  | .reject _ _ => false

namespace SmsManagerModule

/-- `SmsManagerModule.sendSMS(phoneNumber, message, campaignId, promise)`.
`hasPermission` models the SEND_SMS permission check; `dispatchError`
models an exception thrown by the dispatch call — for a body over 160
characters `divideMessage` + `sendMultipartTextMessage(parts)`, otherwise
`sendTextMessage`, both invoked with null pending intents (fire and
forget) and both resolving identically when they return.  On return the
module resolves the promise with status `"sent"` and id
`campaignId + "_" + now` (`System.currentTimeMillis()`), regardless of
what the radio later acknowledges for any part. -/
def sendSMS (hasPermission : Bool) (dispatchError : Option (List Char))
    (campaignId now message : List Char) : PromiseOutcome :=
  if !hasPermission then
    .reject (str "PERMISSION_DENIED") (str "SMS permission not granted")
  else
    match dispatchError with
    | some e => .reject (str "SMS_SEND_FAILED") e
    | none =>
      let _parts := splitLongMessage message 160
      .resolve (str "sent") (campaignId ++ str "_" ++ now)

end SmsManagerModule

/-- C1 as stated: for every body exceeding one segment, the overall
outcome reported by the bridge (`SmsManagerModule.sendSMS`, the function
that performs the multipart send and reports the outcome) is success
exactly when every part of the split is acknowledged as sent by the radio
(`ack i` being the i-th part's acknowledgement). -/
def MultipartAckClaim : Prop :=
  ∀ (campaignId now message : List Char) (ack : Nat → Bool),
    160 < message.length →
    ((SmsManagerModule.sendSMS true none campaignId now message).isSent = true
      ↔ ∀ i, i < (splitLongMessage message 160).length → ack i = true)

set_option maxRecDepth 10000 in
/-- C1 counterexample: a 200-character message dispatched while the radio
acknowledges no part at all is still reported as overall `"sent"` —
`SmsManagerModule.sendSMS` resolves `"sent"` whenever permission is
granted and dispatch does not throw, never consulting acknowledgements
(its pending intents are null). -/
theorem multipartAckClaim_false : ¬ MultipartAckClaim := by
  intro h
  have h2 := h (str "c1") (str "0") (List.replicate 200 'a') (fun _ => false) (by decide)
  have hsent :
      (SmsManagerModule.sendSMS true none (str "c1") (str "0")
        (List.replicate 200 'a')).isSent = true := by decide
  have h0 : 0 < (splitLongMessage (List.replicate 200 'a') 160).length := by decide
  have := h2.mp hsent 0 h0
  simp at this

/-- C1 amended: (a) `SmsManagerModule.sendSMS` resolves with overall
status `"sent"` whenever permission is granted and the fire-and-forget
dispatch call does not throw, independently of per-part acknowledgements;
(b) `SMSService.sendLongSMS` aggregates nothing — it returns one result
per part, in order, and the returned list is all-success exactly when the
`sendSMS` call of every numbered part succeeds, so a failing part
surfaces as a failure entry in the list, not as an overall outcome. -/
theorem sendLongSMS_per_part (campaignId now message : List Char) (hasNative : Bool)
    (native : List Char → List Char → Except (List Char) (Option (List Char)))
    (nowId phoneNumber : List Char) :
    (SmsManagerModule.sendSMS true none campaignId now message).isSent = true
      ∧ (SMSService.sendLongSMS hasNative native nowId phoneNumber message).length
          = (splitLongMessage message 160).length
      ∧ (SMSService.sendLongSMS hasNative native nowId phoneNumber message).all
            (fun r => r.success)
          = (SMSService.partMessages message).all
              (fun pm => (SMSService.sendSMS hasNative native nowId phoneNumber pm).1.success) := by
  refine ⟨?_, ?_, ?_⟩
  · simp [SmsManagerModule.sendSMS, PromiseOutcome.isSent]
  · simp [SMSService.sendLongSMS, SMSService.partMessages]
  · unfold SMSService.sendLongSMS
    generalize SMSService.partMessages message = l
    induction l with
    | nil => rfl
    | cons pm rest ih => simp only [List.map_cons, List.all_cons, ih]

/-! ## The bridge component's message queue (SMSBridgeApp.tsx) -/

/-- Message status in the bridge component
(`'pending' | 'sent' | 'failed'`). -/
inductive MsgStatus
  | pending
  | sent
  | failed
deriving DecidableEq

/-- `'sent'` and `'failed'` are the terminal outcomes a status report may
carry (the type of `updateMessageStatus`'s `status` parameter). -/
def MsgStatus.isTerminal : MsgStatus → Bool
  | .pending => false
  | .sent => true
  | .failed => true

/-- The `SMSMessage` record of the bridge component (`to` is the
recipient field, renamed `toNumber` because `to` is reserved). -/
structure SMSMessage where
  id : List Char
  toNumber : List Char
  message : List Char
  campaignId : List Char
  status : MsgStatus
  timestamp : Nat
deriving DecidableEq

/-- `{ ...msg, status }`: the copy of `msg` with its status replaced. -/
def SMSMessage.withStatus (m : SMSMessage) (s : MsgStatus) : SMSMessage :=
  ⟨m.id, m.toNumber, m.message, m.campaignId, s, m.timestamp⟩

/-- `updateMessageStatus(messageId, status)`: map over the queue, setting
`status` on every message whose id matches. -/
def updateMessageStatus (messageId : List Char) (status : MsgStatus)
    (queue : List SMSMessage) : List SMSMessage :=
  queue.map fun msg => if msg.id = messageId then msg.withStatus status else msg

/-- C3 as stated: once a terminal report for a message id has been
applied, any later terminal report for the same id leaves the queue
unchanged (the first terminal report wins, never re-triggering a
transition). -/
def FirstReportWinsClaim : Prop :=
  ∀ (queue : List SMSMessage) (messageId : List Char) (s1 s2 : MsgStatus),
    s1.isTerminal = true → s2.isTerminal = true →
    updateMessageStatus messageId s2 (updateMessageStatus messageId s1 queue)
      = updateMessageStatus messageId s1 queue

/-- C3 counterexample: on the one-message queue for id `"m1"`, a first
terminal report `sent` followed by a second terminal report `failed` for
the same id rewrites the status to `failed` — `updateMessageStatus` is
last-write-wins, so the later conflicting report re-triggers a
transition. -/
theorem firstReportWins_false : ¬ FirstReportWinsClaim := fun h =>
  absurd
    (h [⟨str "m1", str "+15551234567", str "hi", str "c1", .pending, 0⟩]
      (str "m1") .sent .failed rfl rfl)
    (by decide)

/-- C3 amended: `updateMessageStatus` reconciles duplicate terminal
reports idempotently only when they carry the same outcome — re-applying
a report with the same status leaves the queue unchanged — while a later
terminal report with a different outcome overwrites the earlier one
(last write wins). -/
theorem updateMessageStatus_idempotent (queue : List SMSMessage)
    (messageId : List Char) (status : MsgStatus) :
    updateMessageStatus messageId status (updateMessageStatus messageId status queue)
      = updateMessageStatus messageId status queue := by
  induction queue with
  | nil => rfl
  | cons m rest ih =>
    simp only [updateMessageStatus, List.map_cons, List.map_map] at ih ⊢
    refine congrArg₂ List.cons ?_ ?_
    · by_cases hid : m.id = messageId
      · simp [hid, SMSMessage.withStatus]
      · simp [hid]
    · exact ih

/-! ## WebUSBSMS (the WebUSB AT-command modem adapter) -/

/-- Health state of the WebUSB device
(`'online' | 'offline' | 'busy' | 'error'`). -/
inductive USBStatus
  | online
  | offline
  | busy
  | error
deriving DecidableEq

/-- Failures an adapter send can surface.  The first six constructors are
the shared error taxonomy of the specification (§7: TransportError,
DeviceBusyError, SendRejectedError, DeviceUnavailableError, TimeoutError,
InternalQueueError — the spec side of the refinement); `rawError msg` is a
plain JS `Error` carrying the message string `msg`, the only kind the
source constructs. -/
inductive AdapterFailure
  | transportError
  | deviceBusyError
  | sendRejectedError
  | deviceUnavailableError
  | timeoutError
  | internalQueueError
  | rawError (msg : List Char)
deriving DecidableEq

/-- Whether a failure belongs to the spec's shared taxonomy. -/
def AdapterFailure.isTaxonomy : AdapterFailure → Bool
  | .rawError _ => false
  | _ => true

/-- Whether a send outcome is a failure of a taxonomy kind. -/
def isTaxonomyFailure {α : Type} : Except AdapterFailure α → Bool
  | .error f => f.isTaxonomy
  | .ok _ => false

/-- The adapter state fields `WebUSBSMS.sendSMS` reads or writes:
`status`, the `messageQueue` in-flight counter (a JS number), whether
`this.device` is non-null, and `lastSeen` (a timestamp). -/
structure USBState where
  status : USBStatus
  messageQueue : Int
  hasDevice : Bool
  lastSeen : Nat
deriving DecidableEq

/-- The object a successful `WebUSBSMS.sendSMS` resolves with
(`messageId: "usb_<id>_<now>"`, `status: 'sent'`). -/
structure USBSendResult where
  messageId : List Char
  sendStatus : List Char
deriving DecidableEq

namespace WebUSBSMS

/-- The error of the first failing AT command among the four the send
path issues in order (`AT`, `AT+CMGF=1`, `AT+CMGS="<to>"`, body +
Ctrl+Z): `atErr i` is the stringified error the i-th `sendATCommand`
throws, `none` when it succeeds. -/
def firstATError (atErr : Nat → Option (List Char)) : Option (List Char) :=
  match atErr 0 with
  | some e => some e
  | none =>
    match atErr 1 with
    | some e => some e
    | none =>
      match atErr 2 with
      | some e => some e
      | none => atErr 3

/-- `WebUSBSMS.sendSMS(options)`.  With no device connected it throws
`"No USB device connected"` before touching any state.  Otherwise it sets
`status = 'busy'` and increments `messageQueue`, runs the four AT
commands, and then either resolves (`status = 'online'`, counter
decremented, `lastSeen` refreshed to `now`) or catches the first AT
failure and rethrows it wrapped as
`"USB SMS sending failed: <error>"` (`status = 'error'`, counter
decremented).  `deviceId`/`nowStr` feed the message id
`"usb_<id>_<Date.now()>"`. -/
def sendSMS (deviceId : List Char) (now : Nat) (nowStr : List Char)
    (atErr : Nat → Option (List Char)) (s : USBState) :
    Except AdapterFailure USBSendResult × USBState :=
  if !s.hasDevice then
    (.error (.rawError (str "No USB device connected")), s)
  else
    let s1 : USBState := ⟨.busy, s.messageQueue + 1, s.hasDevice, s.lastSeen⟩
    match firstATError atErr with
    | none =>
        (.ok ⟨str "usb_" ++ deviceId ++ str "_" ++ nowStr, str "sent"⟩,
         ⟨.online, s1.messageQueue - 1, s1.hasDevice, now⟩)
    | some e =>
        (.error (.rawError (str "USB SMS sending failed: " ++ e)),
         ⟨.error, s1.messageQueue - 1, s1.hasDevice, s1.lastSeen⟩)

end WebUSBSMS

/-- C6 as stated: every failure surfaced by the WebUSB adapter's send is
one of the shared taxonomy kinds, never a raw transport-specific error. -/
def AdapterTaxonomyClaim : Prop :=
  ∀ (deviceId : List Char) (now : Nat) (nowStr : List Char)
    (atErr : Nat → Option (List Char)) (s : USBState) (f : AdapterFailure),
    (WebUSBSMS.sendSMS deviceId now nowStr atErr s).1 = .error f →
    f.isTaxonomy = true

/-- C6 counterexample: on a connected modem whose first AT command fails,
`WebUSBSMS.sendSMS` surfaces the plain error
`"USB SMS sending failed: AT command failed: device timeout"` — the raw
transport string wrapped verbatim, not a taxonomy kind. -/
theorem adapterTaxonomyClaim_false : ¬ AdapterTaxonomyClaim := by
  intro h
  have := h (str "d1") 0 (str "0")
    (fun _ => some (str "AT command failed: device timeout"))
    ⟨.online, 0, true, 0⟩
    (.rawError (str "USB SMS sending failed: AT command failed: device timeout"))
    rfl
  simp [AdapterFailure.isTaxonomy] at this

/-- C6 amended: no failure `WebUSBSMS.sendSMS` surfaces is of a taxonomy
kind — the adapter throws plain `Error`s wrapping the raw transport
message (`"No USB device connected"` or
`"USB SMS sending failed: <raw error>"`); no normalization into the
spec's shared taxonomy happens at this adapter boundary. -/
theorem webUSB_sendSMS_raw_failures (deviceId : List Char) (now : Nat)
    (nowStr : List Char) (atErr : Nat → Option (List Char)) (s : USBState) :
    isTaxonomyFailure (WebUSBSMS.sendSMS deviceId now nowStr atErr s).1 = false := by
  unfold WebUSBSMS.sendSMS
  cases hs : s.hasDevice with
  | false => simp [isTaxonomyFailure, AdapterFailure.isTaxonomy]
  | true =>
    cases hfe : WebUSBSMS.firstATError atErr with
    | none => simp [hfe, isTaxonomyFailure]
    | some e => simp [hfe, isTaxonomyFailure, AdapterFailure.isTaxonomy]

/-- C9: every call of `WebUSBSMS.sendSMS` leaves the device's
`messageQueue` counter at its pre-call value, whether the call resolves
or throws: the counter is incremented on entry and decremented on both
the success and the error path (and untouched by the no-device throw,
which happens before the increment). -/
theorem webUSB_sendSMS_messageQueue_balanced (deviceId : List Char) (now : Nat)
    (nowStr : List Char) (atErr : Nat → Option (List Char)) (s : USBState) :
    ((WebUSBSMS.sendSMS deviceId now nowStr atErr s).2).messageQueue = s.messageQueue := by
  unfold WebUSBSMS.sendSMS
  cases hs : s.hasDevice with
  | false => simp
  | true =>
    cases hfe : WebUSBSMS.firstATError atErr with
    | none => simp [hfe]
    | some e => simp [hfe]

/-! ## NetworkService (mobile/react-native/src/services/NetworkService.ts) -/

/-- The `DeviceInfo` record the service registers with
(`deviceId`, `deviceName`, `type: 'android' | 'ios'`,
`connection: 'wifi'`). -/
structure NetDeviceInfo where
  deviceId : List Char
  deviceName : List Char
  devType : List Char
  connection : List Char
deriving DecidableEq

/-- The WebSocket handle as `send` sees it: its `readyState`
(`WebSocket.OPEN = 1`). -/
structure WSocket where
  readyState : Nat
deriving DecidableEq

/-- The fields of `NetworkService` state that `send` can read or write. -/
structure NetworkState where
  socket : Option WSocket
  serverUrl : List Char
  deviceInfo : Option NetDeviceInfo
  isConnected : Bool
deriving DecidableEq

/-- The JSON envelope `send` writes to the socket
(`{ type, data, timestamp, deviceId }`). -/
structure WireMessage where
  msgType : List Char
  data : List Char
  timestamp : List Char
  deviceId : Option (List Char)
deriving DecidableEq

namespace NetworkService

/-- `NetworkService.send(type, data)`.  `sendThrows` models
`socket.send` throwing (the catch block swallows it); `now` is
`new Date().toISOString()`.  The result pairs the service state after the
call with the transmitted envelope, `none` when nothing was sent; the
function is total — `send` never throws to its caller. -/
def send (sendThrows : Bool) (now : List Char) (s : NetworkState)
    (msgType data : List Char) : NetworkState × Option WireMessage :=
  match s.socket with
  | none => (s, none)
  | some sock =>
    if sock.readyState ≠ 1 then (s, none)
    else if sendThrows then (s, none)
    else (s, some ⟨msgType, data, now, s.deviceInfo.map fun d => d.deviceId⟩)

end NetworkService

/-- C10: while the WebSocket is absent or not in the OPEN state
(`readyState ≠ 1`), `NetworkService.send` silently drops the message for
every message type and payload: nothing is transmitted, no error reaches
the caller (the embedding is a total function), and the service state is
returned unchanged. -/
theorem networkService_send_disconnected_noop (sendThrows : Bool)
    (now : List Char) (s : NetworkState) (msgType data : List Char)
    (h : ∀ sock, s.socket = some sock → sock.readyState ≠ 1) :
    NetworkService.send sendThrows now s msgType data = (s, none) := by
  unfold NetworkService.send
  cases hs : s.socket with
  | none => rfl
  | some sock =>
    have hr := h sock hs
    simp [hr]

/-- Witness for `networkService_send_disconnected_noop`: a service whose
socket field is `null` drops a `heartbeat` message and keeps its state. -/
theorem networkService_send_disconnected_noop_witness :
    NetworkService.send false (str "t0") ⟨none, str "http", none, false⟩
        (str "heartbeat") (str "ok")
      = (⟨none, str "http", none, false⟩, none) :=
  networkService_send_disconnected_noop false (str "t0")
    ⟨none, str "http", none, false⟩ (str "heartbeat") (str "ok")
    (fun sock hs => by simp at hs)

/-! ## generatePreview (the campaign-builder personalization function) -/

/-- `key.toUpperCase()`. -/
def toUpperList (s : List Char) : List Char := s.map Char.toUpper

/-- The placeholder pattern built for an attribute key:
`` `{${key.toUpperCase()}}` ``. -/
def placeholderOf (key : List Char) : List Char :=
  str "\x7b" ++ toUpperList key ++ str "\x7d"

/-- `preview.includes(placeholder)`. -/
def containsSub (hay needle : List Char) : Bool :=
  hay.tails.any fun t => needle.isPrefixOf t

/-- `preview.replace(new RegExp(placeholder, 'g'), value)` for the
literal placeholder pattern: global, non-overlapping, left-to-right, the
replacement text not rescanned.  Fuel = haystack length, enough for the
non-empty patterns `generatePreview` builds. -/
def replaceAllGo (needle repl : List Char) : Nat → List Char → List Char
  | _, [] => []
  | 0, c :: cs => c :: cs
  | fuel + 1, c :: cs =>
    if needle.isPrefixOf (c :: cs) then
      repl ++ replaceAllGo needle repl fuel ((c :: cs).drop needle.length)
    else
      c :: replaceAllGo needle repl fuel cs

/-- All-occurrence replacement over a haystack. -/
def replaceAll (hay needle repl : List Char) : List Char :=
  replaceAllGo needle repl hay.length hay

/-- `generatePreview(message, contact)`: fold over the recipient's
attribute entries in order; when `{KEY}` occurs in the current preview,
replace every occurrence with the entry's value (`contact[key] || ''` —
the values are strings and a falsy value is the empty string, its own
replacement). -/
def generatePreview (message : List Char)
    (contact : List (List Char × List Char)) : List Char :=
  contact.foldl
    (fun preview kv =>
      let ph := placeholderOf kv.1
      if containsSub preview ph then replaceAll preview ph kv.2 else preview)
    message

/-- C8 as stated, rendered on the emission function: a recipient missing
a field whose placeholder the template uses is skipped — the message for
that recipient is never emitted with the placeholder blanked or left in
place, so no placeholder of a missing field survives into the emitted
text. -/
def SkipMissingFieldClaim : Prop :=
  ∀ (message : List Char) (contact : List (List Char × List Char)) (key : List Char),
    containsSub message (placeholderOf key) = true →
    (∀ kv ∈ contact, toUpperList kv.1 ≠ toUpperList key) →
    containsSub (generatePreview message contact) (placeholderOf key) = false

/-- C8 counterexample: the template `"Hi {NAME}"` with a recipient that
has only a `phone` attribute is emitted as `"Hi {NAME}"` — the
placeholder is left in place and the recipient is not skipped. -/
theorem skipMissingFieldClaim_false : ¬ SkipMissingFieldClaim := by
  intro h
  have := h (str "Hi \x7bNAME\x7d") [(str "phone", str "5551234")] (str "name")
    (by decide) (by decide)
  exact absurd this (by decide)

/-- C8 amended: `generatePreview` substitutes placeholders only for keys
present in the recipient's attribute map; when no key of the recipient
has its placeholder in the template — in particular when the template's
placeholders all name missing fields — the message is emitted verbatim
with the placeholders left in place, and no recipient is skipped (the
function is total: every recipient gets a message). -/
theorem generatePreview_missing_fields_left (message : List Char)
    (contact : List (List Char × List Char))
    (h : ∀ kv ∈ contact, containsSub message (placeholderOf kv.1) = false) :
    generatePreview message contact = message := by
  induction contact with
  | nil => rfl
  | cons kv rest ih =>
    have h0 := h kv (List.mem_cons_self _ _)
    have hrest : ∀ kv2 ∈ rest, containsSub message (placeholderOf kv2.1) = false :=
      fun kv2 hm => h kv2 (List.mem_cons_of_mem _ hm)
    have hc : ¬ (containsSub message (placeholderOf kv.1) = true) := by simp [h0]
    simp only [generatePreview, List.foldl_cons, if_neg hc]
    exact ih hrest

/-- Witness for `generatePreview_missing_fields_left`: a template with no
placeholder and a one-entry attribute map. -/
theorem generatePreview_missing_fields_left_witness :
    (∀ kv ∈ [(str "phone", str "5551234")],
        containsSub (str "Hi there") (placeholderOf kv.1) = false)
      ∧ generatePreview (str "Hi there") [(str "phone", str "5551234")] = str "Hi there" :=
  ⟨by decide,
   generatePreview_missing_fields_left (str "Hi there") [(str "phone", str "5551234")]
     (by decide)⟩

/-! ## Spec-modelled Dispatcher retry handling (backend service, not
among the provided sources) -/

/-- Modelled from the spec: the Message state machine of the data model
(`queued, assigned, sending, sent, failed, permanently_failed,
cancelled`).  The backend Dispatcher that owns it
(`backend/src/services/deviceService.ts` / `smsQueue.ts`, imported by the
WebUSB adapter) is not among the provided sources. -/
inductive DispatchState
  | queued
  | assigned
  | sending
  | sent
  | failed
  | permanentlyFailed
  | cancelled
deriving DecidableEq

/-- Modelled from the spec: a queued message as the Dispatcher tracks it —
its state and its `attempt_count`. -/
structure DispatchMsg where
  state : DispatchState
  attemptCount : Nat
deriving DecidableEq

/-- Modelled from the spec: the Dispatcher's failure handling — "On
failure: increment attempt_count; if below max_retries, requeue after an
exponential backoff delay; otherwise mark permanently_failed" (the
backoff delay does not affect the resulting state). -/
def onSendFailure (maxRetries : Nat) (m : DispatchMsg) : DispatchMsg :=
  let a := m.attemptCount + 1
  if a < maxRetries then ⟨.queued, a⟩ else ⟨.permanentlyFailed, a⟩

/-- Modelled from the spec: the transitions the Dispatcher and Status
Tracker perform on one message.  Assignment and the start of a send keep
the attempt count; a successful send is terminal `sent`; a failed send
goes through `onSendFailure`; a device that becomes unavailable mid-send
requeues the message without consuming an attempt; cancellation drains a
queued message.  Terminal states (`sent`, `permanentlyFailed`,
`cancelled`) have no outgoing transitions. -/
inductive DispatchStep (maxRetries : Nat) : DispatchMsg → DispatchMsg → Prop
  | assign (a : Nat) : DispatchStep maxRetries ⟨.queued, a⟩ ⟨.assigned, a⟩
  | startSend (a : Nat) : DispatchStep maxRetries ⟨.assigned, a⟩ ⟨.sending, a⟩
  | succeed (a : Nat) : DispatchStep maxRetries ⟨.sending, a⟩ ⟨.sent, a⟩
  | fail (a : Nat) :
      DispatchStep maxRetries ⟨.sending, a⟩ (onSendFailure maxRetries ⟨.sending, a⟩)
  | deviceLost (a : Nat) : DispatchStep maxRetries ⟨.sending, a⟩ ⟨.queued, a⟩
  | cancel (a : Nat) : DispatchStep maxRetries ⟨.queued, a⟩ ⟨.cancelled, a⟩

/-- A message state reachable from the freshly emitted message
(`queued`, zero attempts). -/
def DispatchReachable (maxRetries : Nat) (m : DispatchMsg) : Prop :=
  Relation.ReflTransGen (DispatchStep maxRetries) ⟨.queued, 0⟩ m

/-- C2 (spec-modelled): every reachable message state that has not
reached `permanently_failed` has `attempt_count ≤ max_retries`; each
failure increments the count and requeues only while the count stays
below `max_retries`, marking `permanently_failed` otherwise. -/
theorem attemptCount_le_maxRetries (maxRetries : Nat) (m : DispatchMsg)
    (hr : DispatchReachable maxRetries m)
    (hnf : m.state ≠ DispatchState.permanentlyFailed) :
    m.attemptCount ≤ maxRetries := by
  have key : ∀ m', DispatchReachable maxRetries m' →
      m'.state ≠ DispatchState.permanentlyFailed → m'.attemptCount ≤ maxRetries := by
    intro m' hr'
    induction hr' with
    | refl => intro _; exact Nat.zero_le maxRetries
    | tail hab hbc ih =>
      rename_i b c
      intro hc
      cases hbc with
      | assign a => exact ih (by simp)
      | startSend a => exact ih (by simp)
      | succeed a => exact ih (by simp)
      | fail a =>
        have ha : a ≤ maxRetries := ih (by simp)
        unfold onSendFailure at hc ⊢
        by_cases hlt : a + 1 < maxRetries
        · simp only [hlt, if_pos] at hc ⊢
          exact Nat.le_of_lt hlt
        · simp [hlt] at hc
      | deviceLost a => exact ih (by simp)
      | cancel a => exact ih (by simp)
  exact key m hr hnf

/-- Witness for `attemptCount_le_maxRetries`: the freshly emitted message
under `max_retries = 3`. -/
theorem attemptCount_le_maxRetries_witness :
    (⟨DispatchState.queued, 0⟩ : DispatchMsg).attemptCount ≤ 3 :=
  attemptCount_le_maxRetries 3 ⟨DispatchState.queued, 0⟩
    Relation.ReflTransGen.refl (by decide)

/-! ## Spec-modelled Registry concurrency accounting (backend service,
not among the provided sources) -/

/-- Modelled from the spec: a Device as the Registry accounts for it —
its current in-flight count and its concurrency limit.  The Registry that
owns this accounting is backend code not among the provided sources; the
WebUSB adapter itself only counts in-flight sends in `messageQueue`. -/
structure RegistryDevice where
  inFlight : Nat
  limit : Nat
deriving DecidableEq

/-- Modelled from the spec: Dispatcher assignment and release on one
device.  `selectCandidates` only returns devices with spare capacity, so
an assignment carries the guard `inFlight < limit`; completing a send
releases one unit of capacity. -/
inductive RegistryStep : RegistryDevice → RegistryDevice → Prop
  | assign (d : RegistryDevice) (h : d.inFlight < d.limit) :
      RegistryStep d ⟨d.inFlight + 1, d.limit⟩
  | release (d : RegistryDevice) :
      RegistryStep d ⟨d.inFlight - 1, d.limit⟩

/-- A device state reachable from an idle device of the given limit. -/
def RegistryReachable (limit : Nat) (d : RegistryDevice) : Prop :=
  Relation.ReflTransGen RegistryStep ⟨0, limit⟩ d

/-- C4 (spec-modelled): at every reachable state of a device, the
in-flight count is at most the device's concurrency limit — no sequence
of guarded send assignments and releases can push it past the limit. -/
theorem inFlight_le_limit (limit : Nat) (d : RegistryDevice)
    (hr : RegistryReachable limit d) : d.inFlight ≤ d.limit := by
  induction hr with
  | refl => exact Nat.zero_le limit
  | tail hab hbc ih =>
    rename_i b c
    cases hbc with
    | assign h => exact h
    | release => exact le_trans (Nat.sub_le b.inFlight 1) ih

/-- Witness for `inFlight_le_limit`: an idle device with limit 5. -/
theorem inFlight_le_limit_witness :
    (⟨0, 5⟩ : RegistryDevice).inFlight ≤ (⟨0, 5⟩ : RegistryDevice).limit :=
  inFlight_le_limit 5 ⟨0, 5⟩ Relation.ReflTransGen.refl
